import Mathlib

/-!
Verification development for the bearcat scanner protocol client.

The definitions below are a shallow embedding of `src/bearcat/__init__.py`
and `src/bearcat/handheld/bc125at.py`: the command classification chain of
`BearcatBase._execute_command`, the program-mode session machinery, the
group-flag helpers, the tone and byte substitution tables, the `Channel`
data model of the BC125AT, and transport selection in `BearcatBase.__init__`.
Machine text is modelled as Lean `String`s (Python `str`), byte streams as
`List Nat`, and the responding device as an oracle mapping each issued
command field list to the decoded, whitespace-stripped response line.
-/

deriving instance DecidableEq for Except

namespace Bearcat

/-- Python `int()` on an unsigned decimal string: the digits' value, or
`none` for the `ValueError` on a string that is not all digits. -/
def pyNat? (s : String) : Option Nat :=
  if s.toList ≠ [] ∧ s.toList.all (fun c => c.isDigit) then
    some (s.toList.foldl (fun n c => 10 * n + (c.toNat - 48)) 0)
  else none

/-- Error taxonomy of the client: `CommandNotFound`, `CommandInvalid`,
`UnexpectedResultError`, plus Python `AssertionError` and `ValueError`
raised by precondition checks and `int()` parses. -/
inductive BearcatError where
  | commandNotFound
  | commandInvalid
  | unexpectedResult
  | assertionFailed
  | valueError
deriving DecidableEq, Repr

/-- Python `str.split(sep)` with a one-character separator, on a character list:
always returns at least one (possibly empty) group. -/
def splitOnChar (sep : Char) : List Char → List (List Char)
  | [] => [[]]
  | c :: rest =>
    let r := splitOnChar sep rest
    if c = sep then [] :: r
    else
      match r with
      | [] => [[c]]
      | g :: gs => (c :: g) :: gs

/-- Python `str.split(sep)` with a one-character separator, on a string. -/
def pySplit (sep : Char) (s : String) : List String :=
  (splitOnChar sep s.toList).map List.asString

/-- Python truthiness of a string: `bool(s)` is `True` exactly when `s` is nonempty. -/
def pyTruthy (s : String) : Bool := s != ""

/-- Classification chain of `BearcatBase._execute_command` over the
comma-split fields of the decoded response line, given the first field
`command[0]` of the issued command. -/
def classifyFields (cmd0 : String) (resParts : List String) :
    Except BearcatError (List String) :=
  match resParts with
  | [] => .error .unexpectedResult
  | r0 :: rest =>
    if r0 = "ERR" then .error .commandNotFound
    else if r0 ≠ cmd0 then .error .unexpectedResult
    else
      match rest with
      | [] => .error .unexpectedResult
      | r1 :: _ => if r1 = "NG" then .error .commandInvalid else .ok rest

/-- `BearcatBase._execute_command` from the decoded, stripped response line:
split on commas, then classify. -/
def classifyResponse (cmd0 : String) (resStr : String) :
    Except BearcatError (List String) :=
  classifyFields cmd0 (pySplit ',' resStr)

/-- `BearcatBase._check_response`: raise `UnexpectedResultError` unless the
response has exactly the expected number of fields. -/
def check_response (response : List String) (expected : Nat) :
    Except BearcatError Unit :=
  if response.length ≠ expected then .error .unexpectedResult else .ok ()

/-- `BearcatBase._check_ok`: the response must be exactly one field equal to `OK`. -/
def check_ok (response : List String) : Except BearcatError Unit :=
  match check_response response 1 with
  | .error e => .error e
  | .ok _ => if response.headD "" ≠ "OK" then .error .unexpectedResult else .ok ()

/-- The device as seen through one command round trip: each issued command
field list is answered by a decoded, stripped response line. -/
def Oracle := List String → String

/-- Result of running an operation of the client against an `Oracle`:
the Python return value or raised exception, the `_in_program_mode` flag
after the call, and the list of command round trips issued on the transport,
in order. -/
structure Outcome (α : Type) where
  result : Except BearcatError α
  inProgramMode : Bool
  trace : List (List String)

/-- One full `_execute_command` round trip against the device oracle. -/
def execCommand (o : Oracle) (cmd : List String) : Except BearcatError (List String) :=
  classifyResponse (cmd.headD "") (o cmd)

/-- `BearcatBase.enter_program_mode`: run the `PRG` action; the
`_in_program_mode` flag is set to `True` only after `_check_ok` passes. -/
def enter_program_mode (o : Oracle) (pm : Bool) : Outcome Unit :=
  match execCommand o ["PRG"] with
  | .error e => ⟨.error e, pm, [["PRG"]]⟩
  | .ok resp =>
    match check_ok resp with
    | .error e => ⟨.error e, pm, [["PRG"]]⟩
    | .ok _ => ⟨.ok (), true, [["PRG"]]⟩

/-- `BearcatBase.exit_program_mode`: run the `EPG` action; the
`_in_program_mode` flag is set to `False` only after `_check_ok` passes. -/
def exit_program_mode (o : Oracle) (pm : Bool) : Outcome Unit :=
  match execCommand o ["EPG"] with
  | .error e => ⟨.error e, pm, [["EPG"]]⟩
  | .ok resp =>
    match check_ok resp with
    | .error e => ⟨.error e, pm, [["EPG"]]⟩
    | .ok _ => ⟨.ok (), false, [["EPG"]]⟩

/-- `BearcatBase._execute_program_mode_command`: if not already in program
mode, enter first and exit afterwards; exceptions propagate at each stage
exactly as in the Python control flow. -/
def execute_program_mode_command (o : Oracle) (cmd : List String) (pm : Bool) :
    Outcome (List String) :=
  if pm then
    ⟨execCommand o cmd, pm, [cmd]⟩
  else
    let e := enter_program_mode o pm
    match e.result with
    | .error err => ⟨.error err, e.inProgramMode, e.trace⟩
    | .ok _ =>
      match execCommand o cmd with
      | .error err => ⟨.error err, e.inProgramMode, e.trace ++ [cmd]⟩
      | .ok resp =>
        let x := exit_program_mode o e.inProgramMode
        match x.result with
        | .error err => ⟨.error err, x.inProgramMode, e.trace ++ [cmd] ++ x.trace⟩
        | .ok _ => ⟨.ok resp, x.inProgramMode, e.trace ++ [cmd] ++ x.trace⟩

/-- Decoding half of `BearcatBase._get_program_mode_group`: the single
response field must be exactly 10 characters, each character is then passed
through Python `bool(c)` (truthiness of a one-character string). -/
def get_program_mode_group_decode (response : String) : Except BearcatError (List Bool) :=
  if response.length ≠ 10 then .error .unexpectedResult
  else .ok (response.toList.map (fun c => pyTruthy (String.singleton c)))

/-- Encoding half of `BearcatBase._set_program_mode_group`: assert exactly
10 booleans, then join `str(int(b))` over the list. -/
def set_program_mode_group_encode (states : List Bool) : Except BearcatError String :=
  if states.length ≠ 10 then .error .assertionFailed
  else .ok (String.join (states.map (fun b => if b then "1" else "0")))

/-- A key of `BearcatBase.TONE_MAP`: a symbolic mode name, a CTCSS frequency
(held in tenths of Hz, so the Python float `67.0` is `ctcss 670`), or a DCS
numeric code. -/
inductive Tone where
  | mode (s : String)
  | ctcss (tenthsHz : Nat)
  | dcs (code : Nat)
deriving DecidableEq, Repr

/-- `BearcatBase.TONE_MAP`, mode and CTCSS entries up to 103.5 Hz (split to keep list literals small). -/
def toneEntries0 : List (Tone × Nat) :=
  [(.mode "NONE", 0),
   (.mode "ALL", 0),
   (.mode "SEARCH", 127),
   (.mode "NO_TONE", 240),
   (.ctcss 670, 64),
   (.ctcss 693, 65),
   (.ctcss 719, 66),
   (.ctcss 744, 67),
   (.ctcss 770, 68),
   (.ctcss 797, 69),
   (.ctcss 825, 70),
   (.ctcss 854, 71),
   (.ctcss 885, 72),
   (.ctcss 915, 73),
   (.ctcss 948, 74),
   (.ctcss 974, 75),
   (.ctcss 1000, 76),
   (.ctcss 1035, 77),
   (.ctcss 1072, 78),
   (.ctcss 1109, 79),
   (.ctcss 1148, 80),
   (.ctcss 1188, 81),
   (.ctcss 1230, 82),
   (.ctcss 1273, 83),
   (.ctcss 1318, 84),
   (.ctcss 1365, 85),
   (.ctcss 1413, 86),
   (.ctcss 1462, 87),
   (.ctcss 1514, 88),
   (.ctcss 1567, 89),
   (.ctcss 1598, 90),
   (.ctcss 1622, 91),
   (.ctcss 1655, 92),
   (.ctcss 1679, 93),
   (.ctcss 1713, 94),
   (.ctcss 1738, 95),
   (.ctcss 1773, 96),
   (.ctcss 1799, 97),
   (.ctcss 1835, 98),
   (.ctcss 1862, 99)]

/-- `BearcatBase.TONE_MAP`, CTCSS entries from 107.2 Hz and DCS entries up to code 65 (split to keep list literals small). -/
def toneEntries1 : List (Tone × Nat) :=
  [(.ctcss 1899, 100),
   (.ctcss 1928, 101),
   (.ctcss 1966, 102),
   (.ctcss 1995, 103),
   (.ctcss 2035, 104),
   (.ctcss 2065, 105),
   (.ctcss 2107, 106),
   (.ctcss 2181, 107),
   (.ctcss 2257, 108),
   (.ctcss 2291, 109),
   (.ctcss 2336, 110),
   (.ctcss 2418, 111),
   (.ctcss 2503, 112),
   (.ctcss 2541, 113),
   (.dcs 23, 128),
   (.dcs 25, 129),
   (.dcs 26, 130),
   (.dcs 31, 131),
   (.dcs 32, 132),
   (.dcs 36, 133),
   (.dcs 43, 134),
   (.dcs 47, 135),
   (.dcs 51, 136),
   (.dcs 53, 137),
   (.dcs 54, 138),
   (.dcs 65, 139),
   (.dcs 71, 140),
   (.dcs 72, 141),
   (.dcs 73, 142),
   (.dcs 74, 143),
   (.dcs 114, 144),
   (.dcs 115, 145),
   (.dcs 116, 146),
   (.dcs 122, 147),
   (.dcs 125, 148),
   (.dcs 131, 149),
   (.dcs 132, 150),
   (.dcs 134, 151),
   (.dcs 143, 152),
   (.dcs 145, 153)]

/-- `BearcatBase.TONE_MAP`, DCS entries for codes 140 to 178 (split to keep list literals small). -/
def toneEntries2 : List (Tone × Nat) :=
  [(.dcs 152, 154),
   (.dcs 155, 155),
   (.dcs 156, 156),
   (.dcs 162, 157),
   (.dcs 165, 158),
   (.dcs 172, 159),
   (.dcs 174, 160),
   (.dcs 205, 161),
   (.dcs 212, 162),
   (.dcs 223, 163),
   (.dcs 225, 164),
   (.dcs 226, 165),
   (.dcs 243, 166),
   (.dcs 244, 167),
   (.dcs 245, 168),
   (.dcs 246, 169),
   (.dcs 251, 170),
   (.dcs 252, 171),
   (.dcs 255, 172),
   (.dcs 261, 173),
   (.dcs 263, 174),
   (.dcs 265, 175),
   (.dcs 266, 176),
   (.dcs 271, 177),
   (.dcs 274, 178),
   (.dcs 306, 179),
   (.dcs 311, 180),
   (.dcs 315, 181),
   (.dcs 325, 182),
   (.dcs 331, 183),
   (.dcs 332, 184),
   (.dcs 343, 185),
   (.dcs 346, 186),
   (.dcs 351, 187),
   (.dcs 356, 188),
   (.dcs 364, 189),
   (.dcs 365, 190),
   (.dcs 371, 191),
   (.dcs 411, 192),
   (.dcs 412, 193)]

/-- `BearcatBase.TONE_MAP`, DCS entries for codes 179 to 231 (split to keep list literals small). -/
def toneEntries3 : List (Tone × Nat) :=
  [(.dcs 413, 194),
   (.dcs 423, 195),
   (.dcs 431, 196),
   (.dcs 432, 197),
   (.dcs 445, 198),
   (.dcs 446, 199),
   (.dcs 452, 200),
   (.dcs 454, 201),
   (.dcs 455, 202),
   (.dcs 462, 203),
   (.dcs 464, 204),
   (.dcs 465, 205),
   (.dcs 466, 206),
   (.dcs 503, 207),
   (.dcs 506, 208),
   (.dcs 516, 209),
   (.dcs 523, 210),
   (.dcs 526, 211),
   (.dcs 532, 212),
   (.dcs 546, 213),
   (.dcs 565, 214),
   (.dcs 606, 215),
   (.dcs 612, 216),
   (.dcs 624, 217),
   (.dcs 627, 218),
   (.dcs 631, 219),
   (.dcs 632, 220),
   (.dcs 654, 221),
   (.dcs 662, 222),
   (.dcs 664, 223),
   (.dcs 703, 224),
   (.dcs 712, 225),
   (.dcs 723, 226),
   (.dcs 731, 227),
   (.dcs 732, 228),
   (.dcs 734, 229),
   (.dcs 743, 230),
   (.dcs 754, 231)]

/-- `BearcatBase.TONE_MAP`, entry for entry in source order. -/
def TONE_MAP : List (Tone × Nat) :=
  toneEntries0 ++ toneEntries1 ++ toneEntries2 ++ toneEntries3

/-- Encoding direction of the tone table: `BC125AT.TONE_MAP[tone]`, the
dictionary read left to right (tone keys are unique, so first match is the
dictionary lookup). -/
def toneToCode (t : Tone) : Option Nat :=
  (TONE_MAP.find? (fun p => p.1 = t)).map (fun p => p.2)

/-- Decoding direction of the tone table: the first tone whose entry carries
the given integer code. -/
def codeToTone (c : Nat) : Option Tone :=
  (TONE_MAP.find? (fun p => p.2 = c)).map (fun p => p.1)

/-- `Modulation` enumeration. -/
inductive Modulation where
  | auto | am | fm | nfm
deriving DecidableEq, Repr

/-- `DelayTime` enumeration. -/
inductive DelayTime where
  | minusTen | minusFive | zero | one | two | three | four | five
deriving DecidableEq, Repr

/-- Fields of `BC125AT.Channel` (the `RadioState` fields plus delay, lockout
and priority). -/
structure Channel where
  index : Nat
  name : String
  frequency : Nat
  modulation : Modulation
  tone_code : Nat
  delay : DelayTime
  lockout : Bool
  priority : Bool
deriving DecidableEq, Repr

/-- `BC125AT.Channel.__eq__`, field for field: name, frequency, modulation,
tone code, delay, lockout and priority are compared. -/
def channelEq (a b : Channel) : Bool :=
  a.name = b.name ∧ a.frequency = b.frequency ∧
  a.modulation = b.modulation ∧ a.tone_code = b.tone_code ∧
  a.delay = b.delay ∧ a.lockout = b.lockout ∧ a.priority = b.priority

/-- `BC125AT.update_channel`, given the channel the device currently reports
at `desired.index`: the `set_channel_info` writes issued (Python issues the
write exactly when `get_channel_info(channel.index) != channel`). -/
def update_channel_writes (current desired : Channel) : List Channel :=
  if channelEq current desired then [] else [desired]

/-- `BC125AT.BYTE_MAP`, bytes 0x80 to 0x9F (split to keep list literals small). -/
def byteEntries0 : List (Nat × List Nat) :=
  [(0x80, [0xe2, 0x96, 0x88]),
   (0x81, [0xe2, 0x86, 0x91]),
   (0x82, [0xe2, 0x86, 0x93]),
   (0x83, [76, 111]),
   (0x84, [66, 97, 116]),
   (0x85, [76, 111]),
   (0x86, [99, 107]),
   (0x87, [67]),
   (0x88, [67]),
   (0x89, [67]),
   (0x8A, [67]),
   (0x8B, [0xf0, 0x9f, 0x84, 0xb5]),
   (0x8C, [0xf0, 0x9f, 0x84, 0xbf]),
   (0x8D, [72]),
   (0x8E, [79]),
   (0x8F, [76]),
   (0x90, [68]),
   (0x91, [43]),
   (0x92, [0xf0, 0x9f, 0x84, 0xb2]),
   (0x93, [84]),
   (0x94, [76]),
   (0x95, [76]),
   (0x96, [47]),
   (0x97, [79]),
   (0x98, [32]),
   (0x99, [65]),
   (0x9A, [77]),
   (0x9B, [32]),
   (0x9C, [70]),
   (0x9D, [78]),
   (0x9E, [70]),
   (0x9F, [32])]

/-- `BC125AT.BYTE_MAP`, bytes 0xA0 to 0xBF (split to keep list literals small). -/
def byteEntries1 : List (Nat × List Nat) :=
  [(0xA0, [32]),
   (0xA1, [80]),
   (0xA2, [82, 73]),
   (0xA3, [32]),
   (0xA4, [32]),
   (0xA5, [32]),
   (0xA6, [49]),
   (0xA7, [50]),
   (0xA8, [51]),
   (0xA9, [0xf0, 0x9f, 0x93, 0xb6]),
   (0xAA, [52]),
   (0xAB, [0xf0, 0x9f, 0x93, 0xb6]),
   (0xAC, [53]),
   (0xAD, [0xf0, 0x9f, 0x93, 0xb6]),
   (0xAE, [32]),
   (0xAF, [32]),
   (0xB0, [32]),
   (0xB1, [91]),
   (0xB2, [0xe2, 0x96, 0x88]),
   (0xB3, [93]),
   (0xB4, [32]),
   (0xB5, [67]),
   (0xB6, [67]),
   (0xB7, [67]),
   (0xB8, [67]),
   (0xB9, [32]),
   (0xBA, [32]),
   (0xBB, [32]),
   (0xBC, [32]),
   (0xBD, [32]),
   (0xBE, [32]),
   (0xBF, [32])]

/-- `BC125AT.BYTE_MAP`, bytes 0xC0 to 0xDF (split to keep list literals small). -/
def byteEntries2 : List (Nat × List Nat) :=
  [(0xC0, [32]),
   (0xC1, [32]),
   (0xC2, [32]),
   (0xC3, [32]),
   (0xC4, [32]),
   (0xC5, [83]),
   (0xC6, [82]),
   (0xC7, [67, 58]),
   (0xC8, [32]),
   (0xC9, [32]),
   (0xCA, [32]),
   (0xCB, [32]),
   (0xCC, [32]),
   (0xCD, [66]),
   (0xCE, [78]),
   (0xCF, [75, 58]),
   (0xD0, [32]),
   (0xD1, [32]),
   (0xD2, [32]),
   (0xD3, [32]),
   (0xD4, [83]),
   (0xD5, [86]),
   (0xD6, [67, 58]),
   (0xD7, [68, 58]),
   (0xD8, [80]),
   (0xD9, [82]),
   (0xDA, [73]),
   (0xDB, [32]),
   (0xDC, [32]),
   (0xDD, [32]),
   (0xDE, [32]),
   (0xDF, [32])]

/-- `BC125AT.BYTE_MAP`, entry for entry in source order; each value is the
replacement byte sequence of the Python bytes literal. -/
def BYTE_MAP : List (Nat × List Nat) :=
  byteEntries0 ++ byteEntries1 ++ byteEntries2

/-- `BearcatBase._extend_ascii` over a byte list and a device byte map:
bytes below `0x80` pass through; a byte at or above `0x80` is replaced by
its table entry, and an absent entry is a `KeyError` (modelled as `none`). -/
def extend_ascii (byteMap : List (Nat × List Nat)) : List Nat → Option (List Nat)
  | [] => some []
  | b :: rest =>
    if b < 0x80 then
      match extend_ascii byteMap rest with
      | some out => some (b :: out)
      | none => none
    else
      match byteMap.lookup b with
      | some sub =>
        match extend_ascii byteMap rest with
        | some out => some (sub ++ out)
        | none => none
      | none => none

/-- The transport chosen by `BearcatBase.__init__` from its `port` string. -/
inductive Transport where
  | tcp (address : String) (port : Nat)
  | serialDevice (path : String)
deriving DecidableEq, Repr

/-- Transport selection in `BearcatBase.__init__`: a string splitting into
exactly four dot-separated parts opens a TCP socket (with the part after a
colon as the port when present, else 65125); anything else is opened as a
serial device path. `none` models the `ValueError` of `int()` on a
non-numeric port. -/
def select_transport (port : String) : Option Transport :=
  if (pySplit '.' port).length = 4 then
    if ':' ∈ port.toList then
      match pySplit ':' port with
      | address :: portStr :: _ =>
        match pyNat? portStr with
        | some n => some (.tcp address n)
        | none => none
      | _ => none
    else some (.tcp port 65125)
  else some (.serialDevice port)

/-- Python `str.upper`. -/
def pyUpper (s : String) : String := s.toUpper

/-- `BearcatBase.AVAILABLE_KEYS` of the BC125AT. -/
def AVAILABLE_KEYS : List String :=
  ["<", "^", ">",
   "H", "1", "2", "3",
   "S", "4", "5", "6",
   "R", "7", "8", "9",
   "L", "E", "0", ".",
   "P", "F"]

/-- `BearcatBase._get_string`: execute the command, require exactly one
response field and return it. Never touches `_in_program_mode`. -/
def get_string (o : Oracle) (cmd : String) (pm : Bool) : Outcome String :=
  match execCommand o [cmd] with
  | .error e => ⟨.error e, pm, [[cmd]]⟩
  | .ok resp =>
    match check_response resp 1 with
    | .error e => ⟨.error e, pm, [[cmd]]⟩
    | .ok _ => ⟨.ok (resp.headD ""), pm, [[cmd]]⟩

/-- `BearcatBase._get_number`: `_get_string` followed by Python `int()`
(the responses in question are unsigned decimal strings). -/
def get_number (o : Oracle) (cmd : String) (pm : Bool) : Outcome Nat :=
  let r := get_string o cmd pm
  match r.result with
  | .error e => ⟨.error e, r.inProgramMode, r.trace⟩
  | .ok s =>
    match pyNat? s with
    | some n => ⟨.ok n, r.inProgramMode, r.trace⟩
    | none => ⟨.error .valueError, r.inProgramMode, r.trace⟩

/-- `BearcatBase._set_value`: send a key-value pair and require an `OK`. -/
def set_value (o : Oracle) (cmd : String) (value : String) (pm : Bool) : Outcome Unit :=
  match execCommand o [cmd, value] with
  | .error e => ⟨.error e, pm, [[cmd, value]]⟩
  | .ok resp =>
    match check_ok resp with
    | .error e => ⟨.error e, pm, [[cmd, value]]⟩
    | .ok _ => ⟨.ok (), pm, [[cmd, value]]⟩

/-- `BearcatCommon._key_action`: uppercase the key, assert it is a single
available key, then send `KEY,key,action` and require an `OK`. -/
def key_action (o : Oracle) (key : String) (action : String) (pm : Bool) : Outcome Unit :=
  let k := pyUpper key
  if k.length = 1 ∧ AVAILABLE_KEYS.contains k then
    match execCommand o ["KEY", k, action] with
    | .error e => ⟨.error e, pm, [["KEY", k, action]]⟩
    | .ok resp =>
      match check_ok resp with
      | .error e => ⟨.error e, pm, [["KEY", k, action]]⟩
      | .ok _ => ⟨.ok (), pm, [["KEY", k, action]]⟩
  else ⟨.error .assertionFailed, pm, []⟩

/-- `BearcatBase._get_program_mode_string`: the program-mode wrapper around a
single-field read. -/
def get_program_mode_string (o : Oracle) (cmd : String) (pm : Bool) : Outcome String :=
  let r := execute_program_mode_command o [cmd] pm
  match r.result with
  | .error e => ⟨.error e, r.inProgramMode, r.trace⟩
  | .ok resp =>
    match check_response resp 1 with
    | .error e => ⟨.error e, r.inProgramMode, r.trace⟩
    | .ok _ => ⟨.ok (resp.headD ""), r.inProgramMode, r.trace⟩

/-- `BearcatBase._set_program_mode_value`: the program-mode wrapper around a
key-value write requiring an `OK`. -/
def set_program_mode_value (o : Oracle) (cmd : String) (value : String) (pm : Bool) :
    Outcome Unit :=
  let r := execute_program_mode_command o [cmd, value] pm
  match r.result with
  | .error e => ⟨.error e, r.inProgramMode, r.trace⟩
  | .ok resp =>
    match check_ok resp with
    | .error e => ⟨.error e, r.inProgramMode, r.trace⟩
    | .ok _ => ⟨.ok (), r.inProgramMode, r.trace⟩

/-- `BasicHandheld.enter_test_mode` / `BC125AT.enter_test_mode`: assert the
session is already in program mode, send `TST`, swallow only
`UnexpectedResultError`, then unconditionally clear `_in_program_mode`. -/
def enter_test_mode (o : Oracle) (mode : String) (pm : Bool) : Outcome Unit :=
  if pm then
    match execCommand o ["TST", mode, "UNIDEN_TEST_MODE"] with
    | .error .unexpectedResult => ⟨.ok (), false, [["TST", mode, "UNIDEN_TEST_MODE"]]⟩
    | .error e => ⟨.error e, pm, [["TST", mode, "UNIDEN_TEST_MODE"]]⟩
    | .ok _ => ⟨.ok (), false, [["TST", mode, "UNIDEN_TEST_MODE"]]⟩
  else ⟨.error .assertionFailed, pm, []⟩

/-- `BearcatCommon.delete_channel`: assert the channel number is in range
for the BC125AT (500 channels), then `DCH` through the program-mode wrapper. -/
def delete_channel (o : Oracle) (n : Nat) (pm : Bool) : Outcome Unit :=
  if 1 ≤ n ∧ n ≤ 500 then set_program_mode_value o "DCH" (toString n) pm
  else ⟨.error .assertionFailed, pm, []⟩

/-- The public operations of the device classes covered by this development. -/
inductive PublicOp where
  | getModel
  | getVersion
  | getVolume
  | setVolume (level : String)
  | pressKey (key : String)
  | getContrast
  | setContrast (level : String)
  | deleteChannel (n : Nat)
  | enterProgramMode
  | exitProgramMode
  | enterTestMode (mode : String)
deriving DecidableEq, Repr

/-- Forget the return value of an operation, keeping error, flag and trace. -/
def forgetResult (out : Outcome α) : Outcome Unit :=
  ⟨out.result.map (fun _ => ()), out.inProgramMode, out.trace⟩

/-- Run one public operation against the device oracle from a given
`_in_program_mode` flag, each dispatched to its embedded definition. -/
def run_public_op (op : PublicOp) (o : Oracle) (pm : Bool) : Outcome Unit :=
  match op with
  | .getModel => forgetResult (get_string o "MDL" pm)
  | .getVersion => forgetResult (get_string o "VER" pm)
  | .getVolume => forgetResult (get_number o "VOL" pm)
  | .setVolume level => set_value o "VOL" level pm
  | .pressKey key => key_action o key "P" pm
  | .getContrast => forgetResult (get_program_mode_string o "CNT" pm)
  | .setContrast level => set_program_mode_value o "CNT" level pm
  | .deleteChannel n => delete_channel o n pm
  | .enterProgramMode => enter_program_mode o pm
  | .exitProgramMode => exit_program_mode o pm
  | .enterTestMode mode => enter_test_mode o mode pm

/-- The operations the spec names as the legitimate mutators of
`_in_program_mode`: the enter and exit actions and everything funnelled
through the auto-wrap program-mode helper. -/
def spec_flag_mutators : PublicOp → Bool
  | .enterProgramMode => true
  | .exitProgramMode => true
  | .getContrast => true
  | .setContrast _ => true
  | .deleteChannel _ => true
  | _ => false

/-- `spec_flag_mutators` together with `enter_test_mode`, which also writes
the flag. -/
def flag_writing_ops : PublicOp → Bool
  | .enterTestMode _ => true
  | op => spec_flag_mutators op

/-- A device that acknowledges `PRG` and `EPG` and answers `VOL` with level 5. -/
def okOracle : Oracle := fun cmd =>
  match cmd with
  | ["PRG"] => "PRG,OK"
  | ["EPG"] => "EPG,OK"
  | _ => "VOL,5"

/-- A device whose every response line is `ERR`. -/
def errOracle : Oracle := fun _ => "ERR"

/-- Whether a Python call returned normally rather than raising. -/
def resultOk : Except BearcatError α → Bool
  | .ok _ => true
  | .error _ => false

/-- A concrete stored channel: index 1, named TEST, 25 MHz FM, CTCSS code 64,
two-second delay, locked out, not priority. -/
def channelA : Channel := ⟨1, "TEST", 25000000, .fm, 64, .two, true, false⟩

/-- The same channel contents as `channelA` but stored at index 2. -/
def channelB : Channel := ⟨2, "TEST", 25000000, .fm, 64, .two, true, false⟩

end Bearcat

namespace Bearcat

/-- `_check_ok` succeeds exactly on the one-field response `OK`. -/
theorem check_ok_ok_iff (resp : List String) : check_ok resp = .ok () ↔ resp = ["OK"] := by
  match resp with
  | [] => simp [check_ok, check_response]
  | [x] =>
    by_cases hx : x = "OK" <;> simp [check_ok, check_response, hx]
  | x :: y :: rest => simp [check_ok, check_response]

/-- `_get_string` never touches the `_in_program_mode` flag. -/
theorem get_string_flag (o : Oracle) (cmd : String) (pm : Bool) :
    (get_string o cmd pm).inProgramMode = pm := by
  unfold get_string
  split
  · rfl
  · split <;> rfl

/-- `_get_number` never touches the `_in_program_mode` flag. -/
theorem get_number_flag (o : Oracle) (cmd : String) (pm : Bool) :
    (get_number o cmd pm).inProgramMode = pm := by
  simp only [get_number]
  split
  · exact get_string_flag o cmd pm
  · split <;> exact get_string_flag o cmd pm

/-- `_set_value` never touches the `_in_program_mode` flag. -/
theorem set_value_flag (o : Oracle) (cmd value : String) (pm : Bool) :
    (set_value o cmd value pm).inProgramMode = pm := by
  unfold set_value
  split
  · rfl
  · split <;> rfl

/-- `_key_action` never touches the `_in_program_mode` flag. -/
theorem key_action_flag (o : Oracle) (key action : String) (pm : Bool) :
    (key_action o key action pm).inProgramMode = pm := by
  simp only [key_action]
  split
  · split
    · rfl
    · split <;> rfl
  · rfl

/-- C1: `_execute_command` classifies every decoded response line in this
fixed order: first field `ERR` raises `CommandNotFound` regardless of the
issued mnemonic; a first field differing from the issued mnemonic raises
`UnexpectedResultError`; a single-field response raises
`UnexpectedResultError`; a second field `NG` raises `CommandInvalid`;
otherwise the fields after the first are the result. -/
theorem c1_execute_classification (c0 resStr r0 : String) (rest : List String)
    (hres : pySplit ',' resStr = r0 :: rest) :
    (r0 = "ERR" → classifyResponse c0 resStr = .error .commandNotFound) ∧
    (r0 ≠ "ERR" → r0 ≠ c0 → classifyResponse c0 resStr = .error .unexpectedResult) ∧
    (r0 ≠ "ERR" → r0 = c0 → rest = [] → classifyResponse c0 resStr = .error .unexpectedResult) ∧
    (∀ r1 rest2, r0 ≠ "ERR" → r0 = c0 → rest = r1 :: rest2 →
      (r1 = "NG" → classifyResponse c0 resStr = .error .commandInvalid) ∧
      (r1 ≠ "NG" → classifyResponse c0 resStr = .ok (r1 :: rest2))) := by
  constructor
  · intro h1
    simp [classifyResponse, hres, classifyFields, h1]
  constructor
  · intro h1 h2
    simp [classifyResponse, hres, classifyFields, h1, h2]
  constructor
  · intro h1 h2 h3
    subst h2
    subst h3
    simp [classifyResponse, hres, classifyFields, h1]
  · intro r1 rest2 h1 h2 h3
    subst h2
    subst h3
    constructor
    · intro h4
      simp [classifyResponse, hres, classifyFields, h1, h4]
    · intro h4
      simp [classifyResponse, hres, classifyFields, h1, h4]

/-- C1 witness: the classification evaluated at concrete exchanges. -/
theorem c1_execute_classification_witness :
    classifyResponse "VOL" "ERR" = .error .commandNotFound ∧
    classifyResponse "VOL" "XYZ,5" = .error .unexpectedResult ∧
    classifyResponse "VOL" "VOL" = .error .unexpectedResult ∧
    classifyResponse "VOL" "VOL,NG" = .error .commandInvalid ∧
    classifyResponse "VOL" "VOL,5" = .ok ["5"] :=
  ⟨(c1_execute_classification "VOL" "ERR" "ERR" [] rfl).1 rfl,
   (c1_execute_classification "VOL" "XYZ,5" "XYZ" ["5"] rfl).2.1 (by decide) (by decide),
   (c1_execute_classification "VOL" "VOL" "VOL" [] rfl).2.2.1 (by decide) rfl rfl,
   ((c1_execute_classification "VOL" "VOL,NG" "VOL" ["NG"] rfl).2.2.2 "NG" []
      (by decide) rfl rfl).1 rfl,
   ((c1_execute_classification "VOL" "VOL,5" "VOL" ["5"] rfl).2.2.2 "5" []
      (by decide) rfl rfl).2 (by decide)⟩

set_option maxRecDepth 16384 in
/-- C2 counterexample: the tone table is not a bijection — the entries
`NONE` and `ALL` are distinct tones sharing the integer code 0, so decoding
the code of the `(ALL, 0)` entry does not yield back `ALL`. -/
theorem c2_tone_bijection_counterexample :
    (Tone.mode "ALL", 0) ∈ TONE_MAP ∧
    toneToCode (Tone.mode "ALL") = some 0 ∧
    codeToTone 0 = some (Tone.mode "NONE") ∧
    Tone.mode "NONE" ≠ Tone.mode "ALL" := by decide

set_option maxRecDepth 65536 in
set_option maxHeartbeats 1000000 in
/-- C2 amended: every table entry encodes to its code, and every entry other
than `(ALL, 0)` is recovered by decoding its code; only the `NONE`/`ALL`
pair breaks the bijection. -/
theorem c2_tone_map_amended :
    ∀ p ∈ TONE_MAP, toneToCode p.1 = some p.2 ∧
      (p.1 ≠ Tone.mode "ALL" → codeToTone p.2 = some p.1) := by decide

set_option maxRecDepth 16384 in
/-- C2 witness: the amended statement applied to the `SEARCH` entry. -/
theorem c2_tone_map_amended_witness :
    toneToCode (Tone.mode "SEARCH") = some 127 ∧
    codeToTone 127 = some (Tone.mode "SEARCH") :=
  ⟨(c2_tone_map_amended (Tone.mode "SEARCH", 127) (by decide)).1,
   (c2_tone_map_amended (Tone.mode "SEARCH", 127) (by decide)).2 (by decide)⟩

/-- C3: when every round trip succeeds, invoking the program-mode wrapper
from `_in_program_mode = False` issues exactly the enter action, the target
command and the exit action, in that order, and restores the flag to
`False`; invoking it from `_in_program_mode = True` issues only the target
command and leaves the flag `True`. -/
theorem c3_program_mode_bracketing (o : Oracle) (cmd resp : List String)
    (hprg : execCommand o ["PRG"] = .ok ["OK"])
    (hepg : execCommand o ["EPG"] = .ok ["OK"])
    (hcmd : execCommand o cmd = .ok resp) :
    (execute_program_mode_command o cmd false).trace = [["PRG"], cmd, ["EPG"]] ∧
    (execute_program_mode_command o cmd false).inProgramMode = false ∧
    (execute_program_mode_command o cmd false).result = .ok resp ∧
    (execute_program_mode_command o cmd true).trace = [cmd] ∧
    (execute_program_mode_command o cmd true).inProgramMode = true := by
  simp [execute_program_mode_command, enter_program_mode, exit_program_mode,
    hprg, hepg, hcmd, check_ok, check_response]

/-- C3 witness: the bracketing run against a device that acknowledges
`PRG` and `EPG` and answers `VOL` with one value. -/
theorem c3_program_mode_bracketing_witness :
    execCommand okOracle ["PRG"] = .ok ["OK"] ∧
    execCommand okOracle ["EPG"] = .ok ["OK"] ∧
    execCommand okOracle ["VOL"] = .ok ["5"] ∧
    (execute_program_mode_command okOracle ["VOL"] false).trace =
      [["PRG"], ["VOL"], ["EPG"]] ∧
    (execute_program_mode_command okOracle ["VOL"] false).inProgramMode = false ∧
    (execute_program_mode_command okOracle ["VOL"] true).trace = [["VOL"]] :=
  ⟨rfl, rfl, rfl,
   (c3_program_mode_bracketing okOracle ["VOL"] ["5"] rfl rfl rfl).1,
   (c3_program_mode_bracketing okOracle ["VOL"] ["5"] rfl rfl rfl).2.1,
   (c3_program_mode_bracketing okOracle ["VOL"] ["5"] rfl rfl rfl).2.2.2.1⟩

/-- C4: the group-flag round trip is broken in the code — encoding ten
`False` flags yields the string `0000000000`, but decoding that string
yields ten `True` flags, because Python `bool(c)` on a one-character string
is always `True`; the length-mismatch branch does raise
`UnexpectedResultError` as claimed. -/
theorem c4_group_round_trip_bug :
    set_program_mode_group_encode (List.replicate 10 false) = .ok "0000000000" ∧
    get_program_mode_group_decode "0000000000" = .ok (List.replicate 10 true) ∧
    (List.replicate 10 true : List Bool) ≠ List.replicate 10 false ∧
    get_program_mode_group_decode "00000" = .error .unexpectedResult := by decide

/-- C5 counterexample: `enter_test_mode` is a public operation outside the
set named by the claim (enter, exit, auto-wrap helper), yet it clears
`_in_program_mode` from `True` to `False`. -/
theorem c5_flag_counterexample :
    spec_flag_mutators (PublicOp.enterTestMode "1") = false ∧
    (run_public_op (PublicOp.enterTestMode "1") okOracle true).inProgramMode = false := by
  decide

/-- C5 amended: the flag is written only by `enter_program_mode`,
`exit_program_mode`, the operations funnelled through the auto-wrap helper,
and additionally `enter_test_mode`; every other public operation preserves
it, against every device response and from either flag state. -/
theorem c5_flag_writers_amended (op : PublicOp) (o : Oracle) (pm : Bool)
    (h : flag_writing_ops op = false) :
    (run_public_op op o pm).inProgramMode = pm := by
  cases op with
  | getModel => exact get_string_flag o "MDL" pm
  | getVersion => exact get_string_flag o "VER" pm
  | getVolume => exact get_number_flag o "VOL" pm
  | setVolume level => exact set_value_flag o "VOL" level pm
  | pressKey key => exact key_action_flag o key "P" pm
  | getContrast => simp [flag_writing_ops, spec_flag_mutators] at h
  | setContrast level => simp [flag_writing_ops, spec_flag_mutators] at h
  | deleteChannel n => simp [flag_writing_ops, spec_flag_mutators] at h
  | enterProgramMode => simp [flag_writing_ops, spec_flag_mutators] at h
  | exitProgramMode => simp [flag_writing_ops, spec_flag_mutators] at h
  | enterTestMode mode => simp [flag_writing_ops, spec_flag_mutators] at h

/-- C5 witness: a flag-preserving public operation at a concrete input. -/
theorem c5_flag_writers_amended_witness :
    (run_public_op PublicOp.getModel okOracle true).inProgramMode = true :=
  c5_flag_writers_amended PublicOp.getModel okOracle true rfl

/-- C6 counterexample: two channels that differ only in their index compare
equal under `Channel.__eq__`, so `update_channel` issues no write for them;
the claim that index participates in equality is false. -/
theorem c6_index_eq_counterexample :
    channelA.index ≠ channelB.index ∧
    channelA.name = channelB.name ∧
    channelA.frequency = channelB.frequency ∧
    channelA.modulation = channelB.modulation ∧
    channelA.tone_code = channelB.tone_code ∧
    channelA.delay = channelB.delay ∧
    channelA.lockout = channelB.lockout ∧
    channelA.priority = channelB.priority ∧
    channelEq channelA channelB = true ∧
    update_channel_writes channelA channelB = [] := by decide

/-- C6 amended: channel equality is structural over every field except the
index, which does not participate; `update_channel` issues the
`set_channel_info` write exactly when the channel read from the device is
unequal to the desired channel under that index-ignoring equality. -/
theorem c6_channel_eq_amended (a b cur des : Channel) :
    (channelEq a b = true ↔
      a.name = b.name ∧ a.frequency = b.frequency ∧ a.modulation = b.modulation ∧
      a.tone_code = b.tone_code ∧ a.delay = b.delay ∧ a.lockout = b.lockout ∧
      a.priority = b.priority) ∧
    (update_channel_writes cur des = [des] ↔ channelEq cur des = false) ∧
    (update_channel_writes cur des = [] ↔ channelEq cur des = true) := by
  refine ⟨by simp [channelEq], ?_, ?_⟩ <;>
    · unfold update_channel_writes
      by_cases h : channelEq cur des <;> simp [h]

/-- C7 counterexample: `_extend_ascii` does not survive an unmapped high
byte — `0xE0` is absent from the BC125AT byte map and decoding a response
containing it raises a `KeyError` (modelled as `none`). -/
theorem c7_unmapped_byte_counterexample :
    BYTE_MAP.lookup 0xE0 = none ∧
    extend_ascii BYTE_MAP [0xE0] = none := by decide

/-- C7 amended: bytes below `0x80` always pass through unchanged, but a byte
at or above `0x80` that is absent from the device byte map makes the whole
decode fail with a lookup error rather than being skipped. -/
theorem c7_extend_ascii_amended (bm : List (Nat × List Nat)) (bs : List Nat) :
    ((∀ b ∈ bs, b < 0x80) → extend_ascii bm bs = some bs) ∧
    (∀ b, 0x80 ≤ b → bm.lookup b = none → b ∈ bs → extend_ascii bm bs = none) := by
  induction bs with
  | nil =>
    refine ⟨fun _ => rfl, fun b hb hl hmem => ?_⟩
    cases hmem
  | cons x rest ih =>
    constructor
    · intro hall
      have hx : x < 0x80 := hall x (List.mem_cons_self x rest)
      have hrest := ih.1 (fun b hb => hall b (List.mem_cons_of_mem x hb))
      simp [extend_ascii, hx, hrest]
    · intro b hb hl hmem
      rcases List.mem_cons.mp hmem with hbx | hmem2
      · subst hbx
        have hx : ¬ (b < 0x80) := by omega
        simp [extend_ascii, hx, hl]
      · have hrest := ih.2 b hb hl hmem2
        by_cases hx : x < 0x80
        · simp [extend_ascii, hx, hrest]
        · cases hlx : bm.lookup x with
          | none => simp [extend_ascii, hx, hlx]
          | some sub => simp [extend_ascii, hx, hlx, hrest]

/-- C7 witness: the amended statement evaluated on a mapped and on an
unmapped input over the BC125AT byte map. -/
theorem c7_extend_ascii_amended_witness :
    extend_ascii BYTE_MAP [72, 73] = some [72, 73] ∧
    extend_ascii BYTE_MAP [72, 0xE0] = none :=
  ⟨(c7_extend_ascii_amended BYTE_MAP [72, 73]).1 (by decide),
   (c7_extend_ascii_amended BYTE_MAP [72, 0xE0]).2 0xE0 (by decide) (by decide) (by decide)⟩

/-- C8 counterexample: a host:port address with no dotted-quad host is
treated as a serial device path, not as a TCP relay address, because the
constructor selects TCP only when splitting on dots yields exactly four
parts. -/
theorem c8_transport_counterexample :
    ':' ∈ "localhost:8080".toList ∧
    select_transport "localhost:8080" = some (Transport.serialDevice "localhost:8080") := by
  decide

/-- C8 amended: a string splitting into exactly four dot-separated parts
selects the TCP relay transport — with the digits after a colon as the port
when present and port 65125 otherwise — and every other string, including
host:port forms with fewer dots, is treated as a serial device path. -/
theorem c8_transport_amended (s : String) :
    ((pySplit '.' s).length ≠ 4 → select_transport s = some (.serialDevice s)) ∧
    ((pySplit '.' s).length = 4 → ':' ∉ s.toList →
      select_transport s = some (.tcp s 65125)) ∧
    (∀ address portStr rest n, (pySplit '.' s).length = 4 →
      ':' ∈ s.toList → pySplit ':' s = address :: portStr :: rest →
      pyNat? portStr = some n → select_transport s = some (.tcp address n)) := by
  constructor
  · intro h
    unfold select_transport
    rw [if_neg h]
  constructor
  · intro h hc
    unfold select_transport
    rw [if_pos h, if_neg hc]
  · intro address portStr rest n h hc hsplit hn
    unfold select_transport
    rw [if_pos h, if_pos hc, hsplit]
    dsimp only
    rw [hn]

/-- C8 witness: the amended selection evaluated at a serial path, a
dotted-quad without port, and a dotted-quad with explicit port. -/
theorem c8_transport_amended_witness :
    select_transport "COM3" = some (Transport.serialDevice "COM3") ∧
    select_transport "127.0.0.1" = some (Transport.tcp "127.0.0.1" 65125) ∧
    select_transport "10.0.0.2:8080" = some (Transport.tcp "10.0.0.2" 8080) :=
  ⟨(c8_transport_amended "COM3").1 (by decide),
   (c8_transport_amended "127.0.0.1").2.1 (by decide) (by decide),
   (c8_transport_amended "10.0.0.2:8080").2.2 "10.0.0.2" "8080" [] 8080
     (by decide) (by decide) (by decide) (by decide)⟩

/-- C10: `enter_program_mode` and `exit_program_mode` leave
`_in_program_mode` untouched whenever their round trip raises, and flip it
only after the device acknowledged the action with the single field `OK`. -/
theorem c10_flag_only_after_ok (o : Oracle) (pm : Bool) :
    (resultOk (enter_program_mode o pm).result = false →
      (enter_program_mode o pm).inProgramMode = pm) ∧
    (resultOk (enter_program_mode o pm).result = true →
      (enter_program_mode o pm).inProgramMode = true ∧
      execCommand o ["PRG"] = .ok ["OK"]) ∧
    (resultOk (exit_program_mode o pm).result = false →
      (exit_program_mode o pm).inProgramMode = pm) ∧
    (resultOk (exit_program_mode o pm).result = true →
      (exit_program_mode o pm).inProgramMode = false ∧
      execCommand o ["EPG"] = .ok ["OK"]) := by
  have henter : (resultOk (enter_program_mode o pm).result = false →
        (enter_program_mode o pm).inProgramMode = pm) ∧
      (resultOk (enter_program_mode o pm).result = true →
        (enter_program_mode o pm).inProgramMode = true ∧
        execCommand o ["PRG"] = .ok ["OK"]) := by
    unfold enter_program_mode
    cases h : execCommand o ["PRG"] with
    | error e => exact ⟨fun _ => rfl, fun ht => by simp [resultOk] at ht⟩
    | ok resp =>
      dsimp only
      cases hc : check_ok resp with
      | error e => exact ⟨fun _ => rfl, fun ht => by simp [resultOk] at ht⟩
      | ok u =>
        have hresp : resp = ["OK"] := (check_ok_ok_iff resp).mp hc
        exact ⟨fun hf => by simp [resultOk] at hf,
          fun _ => ⟨rfl, by rw [← hresp]⟩⟩
  have hexit : (resultOk (exit_program_mode o pm).result = false →
        (exit_program_mode o pm).inProgramMode = pm) ∧
      (resultOk (exit_program_mode o pm).result = true →
        (exit_program_mode o pm).inProgramMode = false ∧
        execCommand o ["EPG"] = .ok ["OK"]) := by
    unfold exit_program_mode
    cases h : execCommand o ["EPG"] with
    | error e => exact ⟨fun _ => rfl, fun ht => by simp [resultOk] at ht⟩
    | ok resp =>
      dsimp only
      cases hc : check_ok resp with
      | error e => exact ⟨fun _ => rfl, fun ht => by simp [resultOk] at ht⟩
      | ok u =>
        have hresp : resp = ["OK"] := (check_ok_ok_iff resp).mp hc
        exact ⟨fun hf => by simp [resultOk] at hf,
          fun _ => ⟨rfl, by rw [← hresp]⟩⟩
  exact ⟨henter.1, henter.2, hexit.1, hexit.2⟩

/-- C10 witness: against a device that answers only `ERR`, entering program
mode fails and the flag keeps its prior value `True`. -/
theorem c10_flag_only_after_ok_witness :
    resultOk (enter_program_mode errOracle true).result = false ∧
    (enter_program_mode errOracle true).inProgramMode = true :=
  ⟨rfl, (c10_flag_only_after_ok errOracle true).1 rfl⟩

end Bearcat
